import Mathlib

/-
Verification development for the zfs-restic backup orchestrator.

Shallow embedding of src/backup.py (the BackupManager used by src/app.py).
src/backup_app.py is a near-duplicate of the same orchestration logic; where
the two differ (backup_app.py has no NotificationClient), the BackupManager
variant is the one modelled, since it is the variant the HTTP front-end in
src/app.py instantiates.

Modelling conventions:
- External commands (zfs, mount, restic, requests.post) are oracles: a
  `DatasetEnv` / `WorkerEnv` record supplies the outcome (success or the
  raised exception's message) of every external call.  Each call that the
  code makes is recorded, in order, as an `Act` in a trace; an action in
  the trace is an *attempt*, made whether or not the oracle says it fails.
- Python exceptions are `Except String` values; `try/finally` and
  `try/except` blocks are translated by explicit sequencing of the handler.
- The status dictionary `self.status` is the structure `JobStatus`.
  `log_message` lines referenced by the spec's claims (cleanup warnings,
  parent-lookup warnings, mkdir/rmdir messages, "Failed: ...",
  "Backup lock released.") are modelled in `JobStatus.log`; the
  `SubprocessClient._run` command-echo and captured-output log lines are
  elided, as no claim refers to them.
- `datetime.now()` results are supplied by the environment (`snapNames`,
  `startTime`, `finishTime`), since the claims quantify over them.
- A restic snapshot record's `time` field is an ISO timestamp parsed with
  `datetime.fromisoformat`; the parsed value is modelled as a `Nat` ordered
  exactly as the parsed datetimes are.
-/

/-- The `last_completed_run` sub-dictionary of the status dictionary
(src/backup.py line 118). -/
structure CompletedRun where
  outcome : String
  finish_time : Option String
  details : String
deriving DecidableEq

/-- The `self.status` dictionary of `BackupManager.__init__`
(src/backup.py lines 116-120). -/
structure JobStatus where
  live_status : String
  current_task : String
  last_run_start_time : Option String
  last_completed_run : CompletedRun
  log : List String
deriving DecidableEq

/-- The initial status dictionary built in `BackupManager.__init__`. -/
def initial_status : JobStatus :=
  { live_status := "idle"
  , current_task := "N/A"
  , last_run_start_time := none
  , last_completed_run :=
      { outcome := "N/A", finish_time := none
      , details := "No backup has completed yet." }
  , log := [] }

/-- Model of `log_message(m, self.status)`: append one line to the status log. -/
def logTo (st : JobStatus) (m : String) : JobStatus :=
  { st with log := st.log ++ [m] }

/-- Append several log lines in order. -/
def logAll (st : JobStatus) (ms : List String) : JobStatus :=
  ms.foldl logTo st

/-- One record of `restic snapshots --json` output, restricted to the two
fields the code reads: `time` (modelled as the order-isomorphic parse of the
ISO timestamp) and `short_id`. -/
structure Snap where
  time : Nat
  short_id : String
deriving DecidableEq

/-- Insert into a sorted-by-`time` list, before the first element of
greater-or-equal key.  Together with `sortByTime` this is the standard
stable insertion sort, which has the same sortedness and stability
guarantees as Python's `list.sort(key=...)` (Timsort is stable). -/
def insertByTime (s : Snap) : List Snap → List Snap
  | [] => [s]
  | t :: ts => if s.time ≤ t.time then s :: t :: ts else t :: insertByTime s ts

/-- Stable ascending sort by the `time` key: the model of
`all_snapshots.sort(key=lambda s: datetime.fromisoformat(s['time']))`
(src/backup.py line 76). -/
def sortByTime : List Snap → List Snap
  | [] => []
  | s :: ss => insertByTime s (sortByTime ss)

/-- Python's `lst[-1]`: the last element of a list, `none` when empty. -/
def lastSnap : List Snap → Option Snap
  | [] => none
  | [s] => some s
  | _ :: s :: r => lastSnap (s :: r)

/-- Characterisation used in proofs: the *last* element of maximal `time`,
in original list order (so ties between equal timestamps go to the element
that arrived later). -/
def lastMax : List Snap → Option Snap
  | [] => none
  | s :: ss =>
    match lastMax ss with
    | none => some s
    | some m => if s.time ≤ m.time then some m else some s

/-- Model of `ResticClient.find_parent_snapshot_id` (src/backup.py lines 71-80).
The first argument is the outcome of the `restic snapshots --tag tag --json`
query (including JSON parsing): either the raised exception's message or the
decoded record list.  Returns the parent id (if any) together with the log
lines the call appends; the function itself never raises. -/
def find_parent_snapshot_id (lookup : Except String (List Snap)) (tag : String) :
    Option String × List String :=
  match lookup with
  | Except.error e =>
      (none, ["Could not find parent snapshot for tag '" ++ tag ++ "'. Error: " ++ e])
  | Except.ok snaps =>
      match lastSnap (sortByTime snaps) with
      | none => (none, [])
      | some m => (some m.short_id, [])

/-- Model of `dataset.replace('/', '_')` (src/backup.py line 160): the pattern is a
single character, so `str.replace` is a character map. -/
def safeName (d : String) : String :=
  String.mk (d.data.map (fun c => if c = '/' then '_' else c))

/-- Model of `temp_mount_point = Path(f"/mnt/restic_backup_{safe_dataset_name}")`
(src/backup.py line 161). -/
def mount_point_for (d : String) : String :=
  "/mnt/restic_backup_" ++ safeName d

/-- External calls the orchestrator makes, recorded as attempts in order. -/
inductive Act where
  | mkdir (path : String)
  | snapshot (fullName : String)
  | mount (fullName mountPoint : String)
  | parentQuery (tag : String)
  | backup (path : String) (tags : List String) (parent : Option String)
  | unmount (mountPoint : String)
  | destroy (fullName : String)
  | rmdir (path : String)
  | forget (args : List String)
  | notify (title message : String) (priority : Nat)
deriving DecidableEq

/-- Oracle for the external calls of one dataset's cycle: each field is the
outcome the external world gives that call (`Except.error e` models the
raised exception's message `e`). -/
structure DatasetEnv where
  mkdirOk : Except String Unit
  snapshotOk : Except String Unit
  mountOk : Except String Unit
  parentSnapshots : Except String (List Snap)
  backupOk : Except String Unit
  unmountOk : Except String Unit
  destroyOk : Except String Unit
  rmdirOk : Except String Unit

/-- Result of one dataset's cycle: final status, trace of attempted external
calls, and the Python control-flow outcome (normal return or exception). -/
structure CycleOut where
  status : JobStatus
  trace : List Act
  res : Except String Unit

/-- The body of the inner `try` (src/backup.py lines 166-169):
snapshot, mount, parent lookup, backup; abandons at the first failure. -/
def cycleBody (env : DatasetEnv) (dataset fullName mp : String) (st : JobStatus) :
    CycleOut :=
  match env.snapshotOk with
  | Except.error e => ⟨st, [Act.snapshot fullName], Except.error e⟩
  | Except.ok _ =>
    match env.mountOk with
    | Except.error e =>
        ⟨st, [Act.snapshot fullName, Act.mount fullName mp], Except.error e⟩
    | Except.ok _ =>
      let pr := find_parent_snapshot_id env.parentSnapshots dataset
      let st := logAll st pr.2
      let st :=
        match pr.1 with
        | some pid => logTo st ("Using parent snapshot " ++ pid ++ " for this backup.")
        | none => st
      let tr := [Act.snapshot fullName, Act.mount fullName mp,
                 Act.parentQuery dataset,
                 Act.backup mp [dataset, fullName] pr.1]
      match env.backupOk with
      | Except.error e => ⟨st, tr, Except.error e⟩
      | Except.ok _ => ⟨st, tr, Except.ok ()⟩

/-- The `finally` teardown block (src/backup.py lines 170-177): set the
cleaning-up task, then attempt unmount, destroy and rmdir in order, each
wrapped in its own `try/except` that logs a warning and continues.
`ZFSClient.rmdir` logs "Removing directory: ..." before attempting.
The block itself never raises, so it returns no `Except`. -/
def cleanup (env : DatasetEnv) (dataset fullName mp : String) (st : JobStatus) :
    JobStatus × List Act :=
  let st := { st with current_task := "Cleaning up: " ++ dataset }
  let st :=
    match env.unmountOk with
    | Except.ok _ => st
    | Except.error e => logTo st ("Cleanup warning: " ++ e)
  let st :=
    match env.destroyOk with
    | Except.ok _ => st
    | Except.error e => logTo st ("Cleanup warning: " ++ e)
  let st := logTo st ("Removing directory: " ++ mp)
  let st :=
    match env.rmdirOk with
    | Except.ok _ => st
    | Except.error e => logTo st ("Cleanup warning: " ++ e)
  (st, [Act.unmount mp, Act.destroy fullName, Act.rmdir mp])

/-- One iteration of the dataset loop (src/backup.py lines 155-177):
task update, name and mount-point computation, `zfs.mkdir` (note: *outside*
the `try/finally`), then the guarded body with its guaranteed teardown.
The cycle's outcome is the body's outcome: the teardown block cannot raise,
so a cleanup failure never masks the body's exception. -/
def processDataset (env : DatasetEnv) (dataset snapName : String) (st : JobStatus) :
    CycleOut :=
  let st := { st with current_task := "Processing dataset: " ++ dataset }
  let fullName := dataset ++ "@" ++ snapName
  let mp := mount_point_for dataset
  let st := logTo st ("Creating directory: " ++ mp)
  match env.mkdirOk with
  | Except.error e => ⟨st, [Act.mkdir mp], Except.error e⟩
  | Except.ok _ =>
    let body := cycleBody env dataset fullName mp st
    let cl := cleanup env dataset fullName mp body.status
    ⟨cl.1, Act.mkdir mp :: body.trace ++ cl.2, body.res⟩

/-- The cycle's control-flow outcome as a function of the oracle alone:
first failure among mkdir, snapshot, mount, backup (the parent lookup and
the teardown steps cannot abort the cycle). -/
def cycleRes (env : DatasetEnv) : Except String Unit :=
  match env.mkdirOk with
  | Except.error e => Except.error e
  | Except.ok _ =>
    match env.snapshotOk with
    | Except.error e => Except.error e
    | Except.ok _ =>
      match env.mountOk with
      | Except.error e => Except.error e
      | Except.ok _ => env.backupOk

/-- Number of unmount attempts for a given mount point in a trace. -/
def countUnmount (mp : String) : List Act → Nat
  | [] => 0
  | Act.unmount p :: r => (if p = mp then 1 else 0) + countUnmount mp r
  | _ :: r => countUnmount mp r

/-- Number of snapshot-destroy attempts for a given full snapshot name. -/
def countDestroy (fn : String) : List Act → Nat
  | [] => 0
  | Act.destroy p :: r => (if p = fn then 1 else 0) + countDestroy fn r
  | _ :: r => countDestroy fn r

/-- Number of rmdir attempts for a given path in a trace. -/
def countRmdir (mp : String) : List Act → Nat
  | [] => 0
  | Act.rmdir p :: r => (if p = mp then 1 else 0) + countRmdir mp r
  | _ :: r => countRmdir mp r

/-- The notification attempts contained in a trace, in order. -/
def notifies : List Act → List Act
  | [] => []
  | Act.notify t m p :: r => Act.notify t m p :: notifies r
  | _ :: r => notifies r

/-- Whether a trace contains a prune (`restic forget`) invocation. -/
def hasForget : List Act → Bool
  | [] => false
  | Act.forget _ :: _ => true
  | _ :: r => hasForget r

/-- Discriminator: is this action a prune invocation? -/
def Act.isForget : Act → Bool
  | Act.forget _ => true
  | _ => false

/-- Discriminator: is this action a notification? -/
def Act.isNotify : Act → Bool
  | Act.notify _ _ _ => true
  | _ => false

/-- Result of the dataset loop: final status, trace, the datasets whose
cycle was entered (in order), and the loop's control-flow outcome. -/
structure LoopOut where
  status : JobStatus
  trace : List Act
  entered : List String
  res : Except String Unit

/-- The `for dataset in config.get('datasets', [])` loop (src/backup.py
lines 155-177): process datasets in configuration order; the first cycle
that raises aborts the loop (fail-fast), and later datasets are not
entered.  `denv k` and `snapNames k` are the oracle and the
timestamp-derived snapshot name for the dataset at absolute index `k`. -/
def runDatasets (denv : Nat → DatasetEnv) (snapNames : Nat → String) :
    List String → Nat → JobStatus → LoopOut
  | [], _, st => ⟨st, [], [], Except.ok ()⟩
  | d :: rest, i, st =>
    let c := processDataset (denv i) d (snapNames i) st
    match c.res with
    | Except.error e => ⟨c.status, c.trace, [d], Except.error e⟩
    | Except.ok _ =>
      let r := runDatasets denv snapNames rest (i + 1) c.status
      ⟨r.status, c.trace ++ r.trace, d :: r.entered, r.res⟩

/-- The configuration document: `datasets` (an absent key reads as the
default `[]`) and `retention` (a Python 3.7+ dict, i.e. an iteration-order
preserving key/value sequence; an absent key reads as `{}`). -/
structure Config where
  datasets : List String
  retention : List (String × String)

/-- Oracle for `NotificationClient.send`: whether GOTIFY_URL/GOTIFY_TOKEN
are configured, and the outcome of the `requests.post` when they are. -/
structure NotifyEnv where
  configured : Bool
  postOk : Except String Unit

/-- Model of `NotificationClient.send` (src/backup.py lines 100-109): silent no-op
when unconfigured; otherwise logs, posts, and swallows any delivery error.
It never raises.  The trace records the `send` invocation itself. -/
def notifierSend (nenv : NotifyEnv) (title message : String) (priority : Nat)
    (st : JobStatus) : JobStatus × List Act :=
  let st :=
    if nenv.configured then
      match nenv.postOk with
      | Except.ok _ => logTo st ("Sending Gotify notification: " ++ title)
      | Except.error e =>
          logTo (logTo st ("Sending Gotify notification: " ++ title))
            ("!!! Could not send Gotify notification. Error: " ++ e)
    else st
  (st, [Act.notify title message priority])

/-- Oracle for one whole worker execution. -/
structure WorkerEnv where
  configLoad : Except String Config
  denv : Nat → DatasetEnv
  snapNames : Nat → String
  forgetOk : Except String Unit
  notify : NotifyEnv
  startTime : String
  finishTime : String

/-- The retention-argument flattening (src/backup.py line 182):
`[arg for k, v in retention_policy.items() for arg in [f'--{k}', str(v)]]`.
Values are modelled post-`str()`. -/
def retention_args : List (String × String) → List String
  | [] => []
  | kv :: rest => ("--" ++ kv.1) :: kv.2 :: retention_args rest

/-- The full argument list of `ResticClient.forget` (src/backup.py line 92). -/
def prune_cmd_args (policy : List (String × String)) : List String :=
  ["--prune", "--group-by", "paths"] ++ retention_args policy

/-- Result of the worker's outer `try` body. -/
structure TryOut where
  status : JobStatus
  trace : List Act
  entered : List String
  res : Except String Unit

/-- The body of the worker's outer `try` (src/backup.py lines 152-187):
load configuration, run the dataset loop, prune when the retention policy
is non-empty, then write the success record and send the success
notification. -/
def tryBody (env : WorkerEnv) (st : JobStatus) : TryOut :=
  match env.configLoad with
  | Except.error e => ⟨st, [], [], Except.error e⟩
  | Except.ok config =>
    let r := runDatasets env.denv env.snapNames config.datasets 0 st
    match r.res with
    | Except.error e => ⟨r.status, r.trace, r.entered, Except.error e⟩
    | Except.ok _ =>
      let st := { r.status with current_task := "Pruning old backups" }
      match config.retention with
      | [] =>
        let st := { st with last_completed_run :=
          (CompletedRun.mk ("success") (some env.finishTime)
            "Backup and prune completed successfully.") }
        let n := notifierSend env.notify ("✅ Backup Success")
          "Backup and prune completed successfully." 3 st
        ⟨n.1, r.trace ++ n.2, r.entered, Except.ok ()⟩
      | kv :: rest =>
        match env.forgetOk with
        | Except.error e =>
            ⟨st, r.trace ++ [Act.forget (prune_cmd_args (kv :: rest))],
             r.entered, Except.error e⟩
        | Except.ok _ =>
          let st := { st with last_completed_run :=
            (CompletedRun.mk ("success") (some env.finishTime)
              "Backup and prune completed successfully.") }
          let n := notifierSend env.notify ("✅ Backup Success")
            "Backup and prune completed successfully." 3 st
          ⟨n.1, r.trace ++ [Act.forget (prune_cmd_args (kv :: rest))] ++ n.2,
           r.entered, Except.ok ()⟩

/-- The worker's `except Exception` handler (src/backup.py lines 189-193):
log "Failed: ...", write the failure record, send the failure notification.
On the normal path it passes the body's result through. -/
def handleResult (env : WorkerEnv) (t : TryOut) : JobStatus × List Act :=
  match t.res with
  | Except.ok _ => (t.status, t.trace)
  | Except.error e =>
    let msg := "Failed: " ++ e
    let st := logTo t.status msg
    let st := { st with last_completed_run :=
      (CompletedRun.mk ("failure") (some env.finishTime) msg) }
    let n := notifierSend env.notify ("❌ Backup FAILED") msg 8 st
    (n.1, t.trace ++ n.2)

/-- Result of one worker execution: final status, whether the job lock is
still held when the worker thread's orchestration ends, the trace, and the
datasets entered. -/
structure WorkerResult where
  status : JobStatus
  lockHeld : Bool
  trace : List Act
  entered : List String

/-- The worker's `finally` (src/backup.py lines 194-197): set the status
back to idle, clear the current task, release the lock, log the release.
It runs on every path out of the `try`/`except`. -/
def finalize (p : JobStatus × List Act) (entered : List String) : WorkerResult :=
  let st := { p.1 with live_status := "idle", current_task := "N/A" }
  ⟨logTo st ("Backup lock released."), false, p.2, entered⟩

/-- Model of `BackupManager._perform_backup_thread` (src/backup.py lines 145-197). -/
def perform_backup_thread (env : WorkerEnv) (st0 : JobStatus) : WorkerResult :=
  let st := { st0 with
    live_status := "running",
    current_task := "Reading config",
    last_run_start_time := some env.startTime,
    log := ([] : List String) }
  let t := tryBody env st
  finalize (handleResult env t) t.entered

/-- The manager's concurrency-relevant state: whether the job lock is held
and how many worker threads are mid-job. -/
structure MgrState where
  lockHeld : Bool
  workers : Nat
deriving DecidableEq

/-- State at `BackupManager.__init__`: lock free, no worker. -/
def initMgr : MgrState := ⟨false, 0⟩

/-- Model of `BackupManager.start_backup_job` (src/backup.py lines 130-139):
non-blocking lock acquisition; on success spawn one worker thread and
return `true` immediately; on failure return `false` with no other
effect. -/
def start_backup_job (s : MgrState) : Bool × MgrState :=
  if s.lockHeld then (false, s) else (true, ⟨true, s.workers + 1⟩)

/-- The POST /backup endpoint (src/app.py lines 10-16): 202 when the job
was started, 409 when one is already in progress. -/
def backup_endpoint (s : MgrState) : Nat × MgrState :=
  let r := start_backup_job s
  (if r.1 then 202 else 409, r.2)

/-- Events the lock state reacts to: a start call, or a worker reaching the
end of its `finally` block (which releases the lock unconditionally). -/
inductive MgrEvent where
  | startCall
  | workerFinish

/-- One event step of the manager's lock state. -/
def stepEvent (s : MgrState) : MgrEvent → MgrState
  | MgrEvent.startCall => (start_backup_job s).2
  | MgrEvent.workerFinish => if s.workers = 0 then s else ⟨false, s.workers - 1⟩

/-- Run a sequence of events from a state. -/
def runEvents (s : MgrState) : List MgrEvent → MgrState
  | [] => s
  | ev :: rest => runEvents (stepEvent s ev) rest

/-- Lock invariant: the lock is held exactly while one worker is mid-job. -/
def MgrInv (s : MgrState) : Prop :=
  s.workers = if s.lockHeld then 1 else 0

/-- A reference to the manager's single, process-wide status dictionary.
`BackupManager.get_status` returns `self.status` itself — the object, not a
copy — so the model of its return value is a reference into the store, and
observing it means dereferencing against the store's *current* contents. -/
inductive StatusRef where
  | mk
deriving DecidableEq

/-- Model of `BackupManager.get_status` (src/backup.py lines 126-128): returns the
status dictionary itself (an alias of the live store). -/
def get_status : StatusRef := StatusRef.mk

/-- Dereference a status reference against the current store contents. -/
def readRef (_ : StatusRef) (store : JobStatus) : JobStatus := store

/-- The GET /status endpoint (src/app.py lines 18-21): serializes the
status at request time, producing the store value current at that moment. -/
def status_endpoint (store : JobStatus) : JobStatus :=
  readRef get_status store

/-- Oracle under which every external call succeeds and the parent query
returns no records. -/
def allOkEnv : DatasetEnv :=
  { mkdirOk := Except.ok (), snapshotOk := Except.ok (), mountOk := Except.ok ()
  , parentSnapshots := Except.ok [], backupOk := Except.ok ()
  , unmountOk := Except.ok (), destroyOk := Except.ok (), rmdirOk := Except.ok () }

/-- Oracle whose `mkdir` (the Preparing step) fails; everything else would
succeed. -/
def mkdirFailEnv : DatasetEnv :=
  { allOkEnv with mkdirOk := Except.error ("mkdir: permission denied") }

/-- Oracle whose three teardown steps all fail while the body succeeds. -/
def teardownFailEnv : DatasetEnv :=
  { allOkEnv with
    unmountOk := Except.error ("umount: target is busy"),
    destroyOk := Except.error ("cannot destroy snapshot"),
    rmdirOk := Except.error ("rmdir: directory not empty") }

/-- A worker oracle whose configuration load raises. -/
def configFailWorkerEnv : WorkerEnv :=
  { configLoad := Except.error ("No such file or directory")
  , denv := fun _ => allOkEnv, snapNames := fun _ => "restic-backup-2026-10-12_00-00-00"
  , forgetOk := Except.ok (), notify := ⟨false, Except.ok ()⟩
  , startTime := "2026-10-12T00:00:00", finishTime := "2026-10-12T00:00:01" }

/-- A worker oracle with one dataset whose mount fails, notifier configured. -/
def mountFailWorkerEnv : WorkerEnv :=
  { configLoad := Except.ok ⟨["tank/data", "tank/more"], [("keep-daily", "7")]⟩
  , denv := fun i => if i = 0 then allOkEnv
      else { allOkEnv with mountOk := Except.error ("mount failed") }
  , snapNames := fun _ => "restic-backup-2026-10-12_00-00-00"
  , forgetOk := Except.ok (), notify := ⟨true, Except.ok ()⟩
  , startTime := "2026-10-12T00:00:00", finishTime := "2026-10-12T00:00:01" }

/-- A worker oracle with no datasets and a non-empty retention policy. -/
def emptyDatasetsWorkerEnv : WorkerEnv :=
  { configLoad := Except.ok ⟨[], [("keep-daily", "7")]⟩
  , denv := fun _ => allOkEnv, snapNames := fun _ => "restic-backup-2026-10-12_00-00-00"
  , forgetOk := Except.ok (), notify := ⟨true, Except.ok ()⟩
  , startTime := "2026-10-12T00:00:00", finishTime := "2026-10-12T00:00:01" }

/-- A worker oracle with no datasets and an empty retention policy. -/
def noRetentionWorkerEnv : WorkerEnv :=
  { configLoad := Except.ok ⟨[], []⟩
  , denv := fun _ => allOkEnv, snapNames := fun _ => "restic-backup-2026-10-12_00-00-00"
  , forgetOk := Except.ok (), notify := ⟨false, Except.ok ()⟩
  , startTime := "2026-10-12T00:00:00", finishTime := "2026-10-12T00:00:01" }

/-- The lock invariant holds initially and is preserved by every event. -/
lemma mgrInv_step (s : MgrState) (ev : MgrEvent) (h : MgrInv s) :
    MgrInv (stepEvent s ev) := by
  unfold MgrInv at h ⊢
  cases ev <;> cases hl : s.lockHeld <;>
    simp [stepEvent, start_backup_job, hl, h]

/-- The lock invariant is preserved by every event sequence. -/
lemma mgrInv_run (evs : List MgrEvent) : ∀ s, MgrInv s → MgrInv (runEvents s evs) := by
  induction evs with
  | nil => intro s h; exact h
  | cons ev rest ih => intro s h; exact ih _ (mgrInv_step s ev h)

/-- C1.  Single-flight start: after any sequence of start calls and worker
completions from the initial state, at most one worker is mid-job; a start
call made while the lock is held returns false and changes nothing (and the
POST endpoint answers 409), and a start call made while idle acquires the
lock, spawns exactly one new worker, and returns true (endpoint 202). -/
theorem start_single_flight (evs : List MgrEvent) :
    (runEvents initMgr evs).workers ≤ 1
    ∧ ((runEvents initMgr evs).lockHeld = true →
        start_backup_job (runEvents initMgr evs) = (false, runEvents initMgr evs)
        ∧ backup_endpoint (runEvents initMgr evs) = (409, runEvents initMgr evs))
    ∧ ((runEvents initMgr evs).lockHeld = false →
        start_backup_job (runEvents initMgr evs) =
          (true, MgrState.mk true ((runEvents initMgr evs).workers + 1))
        ∧ (backup_endpoint (runEvents initMgr evs)).1 = 202) := by
  have hinv : MgrInv (runEvents initMgr evs) :=
    mgrInv_run evs initMgr (by simp [MgrInv, initMgr])
  unfold MgrInv at hinv
  refine ⟨?_, fun hl => ?_, fun hl => ?_⟩
  · rw [hinv]; cases hl : (runEvents initMgr evs).lockHeld <;> simp [hl]
  · constructor <;> simp [start_backup_job, backup_endpoint, hl]
  · constructor <;> simp [start_backup_job, backup_endpoint, hl]

/-- Witness for C1: concrete instances of both branches. -/
theorem start_single_flight_witness :
    start_backup_job (runEvents initMgr [MgrEvent.startCall]) =
      (false, runEvents initMgr [MgrEvent.startCall])
    ∧ (runEvents initMgr []).workers ≤ 1
    ∧ start_backup_job (runEvents initMgr []) =
      (true, MgrState.mk true ((runEvents initMgr []).workers + 1)) :=
  ⟨((start_single_flight [MgrEvent.startCall]).2.1 (by rfl)).1,
   (start_single_flight []).1,
   ((start_single_flight []).2.2 (by rfl)).1⟩

/-- C4.  Unconditional finalization: whatever the oracle does (configuration
load, any dataset step, prune, or the notification delivery may fail), the
worker's `finally` always sets the live status back to idle, resets the
current task, logs the release, and releases the job lock, so that a start
call against the post-worker lock state succeeds. -/
theorem worker_unconditional_finalization (env : WorkerEnv) (st0 : JobStatus) (w : Nat) :
    (perform_backup_thread env st0).status.live_status = "idle"
    ∧ (perform_backup_thread env st0).status.current_task = "N/A"
    ∧ (perform_backup_thread env st0).lockHeld = false
    ∧ ("Backup lock released.") ∈ (perform_backup_thread env st0).status.log
    ∧ (start_backup_job (MgrState.mk (perform_backup_thread env st0).lockHeld w)).1 = true := by
  refine ⟨rfl, rfl, rfl, ?_, rfl⟩
  simp [perform_backup_thread, finalize, logTo]

/-- C9.  Mount-point derivation is not injective: two distinct dataset
identifiers can map to the same mount-point directory. -/
theorem mount_point_not_injective :
    ∃ d1 d2 : String, d1 ≠ d2 ∧ mount_point_for d1 = mount_point_for d2 :=
  ⟨"a/b", "a_b", by decide, by decide⟩

/-- C8, counterexample: the value observed through the reference that
`get_status` returned is NOT a point-in-time copy — after the worker runs
(here: a worker whose configuration load fails), the previously returned
value has changed. -/
theorem get_status_not_copy_counterexample :
    readRef get_status ((perform_backup_thread configFailWorkerEnv initial_status).status)
      ≠ readRef get_status initial_status := by
  decide

/-- C8 as amended: `get_status` returns the live status object by
reference, not a copy, so every mutation the worker makes is visible
through a previously returned reference; the GET /status endpoint
serializes the store at request time, so each HTTP response body is the
store value current at that moment. -/
theorem get_status_returns_live_alias (r : StatusRef) (env : WorkerEnv) (st0 : JobStatus) :
    readRef r ((perform_backup_thread env st0).status) = (perform_backup_thread env st0).status
    ∧ status_endpoint ((perform_backup_thread env st0).status) =
        (perform_backup_thread env st0).status :=
  ⟨rfl, rfl⟩

/-- Insertion never produces the empty list. -/
lemma insertByTime_ne_nil (s : Snap) (l : List Snap) : insertByTime s l ≠ [] := by
  cases l with
  | nil => simp [insertByTime]
  | cons t ts =>
    rw [insertByTime]
    split <;> simp

/-- The last element of a cons is the last element of the (non-empty) tail. -/
lemma lastSnap_cons (a : Snap) (l : List Snap) (h : l ≠ []) :
    lastSnap (a :: l) = lastSnap l := by
  cases l with
  | nil => exact absurd rfl h
  | cons b bl => rfl

/-- The last element after inserting: the new element ends up last exactly
when it is strictly greater than everything already present. -/
lemma lastSnap_insertByTime (s : Snap) (l : List Snap) :
    lastSnap (insertByTime s l) =
      if ∀ x ∈ l, x.time < s.time then some s else lastSnap l := by
  induction l with
  | nil => simp [insertByTime, lastSnap]
  | cons t ts ih =>
    by_cases hst : s.time ≤ t.time
    · rw [insertByTime, if_pos hst]
      have hno : ¬ ∀ x ∈ t :: ts, x.time < s.time := by
        intro hall
        have := hall t (by simp)
        omega
      rw [if_neg hno]
      exact lastSnap_cons s (t :: ts) (by simp)
    · rw [insertByTime, if_neg hst]
      rw [lastSnap_cons t (insertByTime s ts) (insertByTime_ne_nil s ts), ih]
      by_cases hts : ∀ x ∈ ts, x.time < s.time
      · rw [if_pos hts, if_pos]
        intro x hx
        rcases List.mem_cons.mp hx with rfl | hx2
        · omega
        · exact hts x hx2
      · rw [if_neg hts, if_neg]
        · have htsne : ts ≠ [] := by
            rintro rfl
            exact hts (by simp)
          rw [lastSnap_cons t ts htsne]
        · intro hall
          exact hts fun x hx => hall x (List.mem_cons_of_mem t hx)

/-- A non-empty list has a last-maximum. -/
lemma lastMax_ne_none (s : Snap) (ss : List Snap) : lastMax (s :: ss) ≠ none := by
  rw [lastMax]
  cases lastMax ss with
  | none => simp
  | some m => by_cases h : s.time ≤ m.time <;> simp [h]

/-- The last-maximum is an upper bound of the whole list. -/
lemma lastMax_le (l : List Snap) : ∀ m, lastMax l = some m → ∀ x ∈ l, x.time ≤ m.time := by
  induction l with
  | nil => intro m h; simp [lastMax] at h
  | cons s ss ih =>
    intro m h x hx
    rw [lastMax] at h
    cases hss : lastMax ss with
    | none =>
      simp only [hss] at h
      injection h with h2
      subst h2
      have hnil : ss = [] := by
        cases ss with
        | nil => rfl
        | cons a bs => exact absurd hss (lastMax_ne_none a bs)
      subst hnil
      simp only [List.mem_singleton] at hx
      subst hx
      omega
    | some mm =>
      simp only [hss] at h
      rcases List.mem_cons.mp hx with rfl | hx2
      · by_cases hc : x.time ≤ mm.time
        · rw [if_pos hc] at h
          injection h with h2
          subst h2
          omega
        · rw [if_neg hc] at h
          injection h with h2
          subst h2
          omega
      · have hxle := ih mm hss x hx2
        by_cases hc : s.time ≤ mm.time
        · rw [if_pos hc] at h
          injection h with h2
          subst h2
          omega
        · rw [if_neg hc] at h
          injection h with h2
          subst h2
          omega

/-- The last-maximum splits the list: it is a maximum, and every element
after its occurrence is strictly smaller (so among equal maxima it is the
one arriving last). -/
lemma lastMax_split (l : List Snap) : ∀ m, lastMax l = some m →
    ∃ l₁ l₂, l = l₁ ++ m :: l₂
      ∧ (∀ x ∈ l₁, x.time ≤ m.time) ∧ (∀ x ∈ l₂, x.time < m.time) := by
  induction l with
  | nil => intro m h; simp [lastMax] at h
  | cons s ss ih =>
    intro m h
    rw [lastMax] at h
    cases hss : lastMax ss with
    | none =>
      simp only [hss] at h
      injection h with h2
      subst h2
      have hnil : ss = [] := by
        cases ss with
        | nil => rfl
        | cons a bs => exact absurd hss (lastMax_ne_none a bs)
      subst hnil
      exact ⟨[], [], rfl, by simp, by simp⟩
    | some mm =>
      simp only [hss] at h
      by_cases hc : s.time ≤ mm.time
      · rw [if_pos hc] at h
        injection h with h2
        subst h2
        obtain ⟨l₁, l₂, heq, h₁, h₂⟩ := ih mm hss
        refine ⟨s :: l₁, l₂, by rw [heq]; rfl, ?_, h₂⟩
        intro x hx
        rcases List.mem_cons.mp hx with rfl | hx2
        · omega
        · exact h₁ x hx2
      · rw [if_neg hc] at h
        injection h with h2
        subst h2
        refine ⟨[], ss, rfl, by simp, ?_⟩
        intro x hx
        have := lastMax_le ss mm hss x hx
        omega

/-- Membership through insertion. -/
lemma mem_insertByTime (s x : Snap) (l : List Snap) :
    x ∈ insertByTime s l ↔ x = s ∨ x ∈ l := by
  induction l with
  | nil => simp [insertByTime]
  | cons t ts ih =>
    rw [insertByTime]
    split
    · simp [List.mem_cons]
    · simp [List.mem_cons, ih]
      tauto

/-- Sorting does not change membership. -/
lemma mem_sortByTime (x : Snap) (l : List Snap) : x ∈ sortByTime l ↔ x ∈ l := by
  induction l with
  | nil => simp [sortByTime]
  | cons s ss ih =>
    rw [sortByTime]
    simp [mem_insertByTime, ih, List.mem_cons]

/-- The last element of the stable ascending sort is the last occurrence of
the maximum in original order. -/
lemma lastSnap_sortByTime (l : List Snap) : lastSnap (sortByTime l) = lastMax l := by
  induction l with
  | nil => rfl
  | cons s ss ih =>
    rw [sortByTime, lastSnap_insertByTime, lastMax]
    cases hss : lastMax ss with
    | none =>
      simp only []
      have hnil : ss = [] := by
        cases ss with
        | nil => rfl
        | cons a bs => exact absurd hss (lastMax_ne_none a bs)
      subst hnil
      simp [sortByTime]
    | some mm =>
      simp only []
      by_cases hc : s.time ≤ mm.time
      · have hmem : mm ∈ sortByTime ss := by
          rw [mem_sortByTime]
          obtain ⟨l₁, l₂, heq, _, _⟩ := lastMax_split ss mm hss
          rw [heq]
          simp
        have hno : ¬ ∀ x ∈ sortByTime ss, x.time < s.time := by
          intro hall
          have := hall mm hmem
          omega
        rw [if_neg hno, if_pos hc, ih, hss]
      · have hall : ∀ x ∈ sortByTime ss, x.time < s.time := by
          intro x hx
          have hx2 : x ∈ ss := (mem_sortByTime x ss).mp hx
          have := lastMax_le ss mm hss x hx2
          omega
        rw [if_pos hall, if_neg hc]

/-- C6, counterexample: with two records of equal timestamps, the code
returns the id of the record appearing *last in the store-returned order*
("a"), not the lexicographically-last id ("b"): Python's `list.sort` is
stable, so equal-key elements keep arrival order and `[-1]` picks the
arrival-last one. -/
theorem find_parent_tiebreak_counterexample :
    (Snap.mk 5 "b").time = (Snap.mk 5 "a").time
    ∧ (find_parent_snapshot_id (Except.ok [Snap.mk 5 "b", Snap.mk 5 "a"]) "tank").1 = some ("a")
    ∧ ("a" : String) < "b"
    ∧ (find_parent_snapshot_id (Except.ok [Snap.mk 5 "b", Snap.mk 5 "a"]) "tank").1 ≠ some ("b") :=
  ⟨rfl, by decide, by
    rw [String.lt_iff_toList_lt]
    decide, by decide⟩

/-- C6 as amended: find-parent returns none on the empty record list, and on
a non-empty list it returns the `short_id` of a record `m` that has maximal
`time` and is the *last* such record in the original list order (stable
sort: equal timestamps are tie-broken by arrival order, not
lexicographically). -/
theorem find_parent_ordering (tag : String) (l : List Snap) (h : l ≠ []) :
    (find_parent_snapshot_id (Except.ok ([] : List Snap)) tag).1 = none
    ∧ ∃ m l₁ l₂,
        (find_parent_snapshot_id (Except.ok l) tag).1 = some m.short_id
        ∧ l = l₁ ++ m :: l₂
        ∧ (∀ x ∈ l₁, x.time ≤ m.time)
        ∧ (∀ x ∈ l₂, x.time < m.time) := by
  refine ⟨rfl, ?_⟩
  obtain ⟨s, ss, rfl⟩ := List.exists_cons_of_ne_nil h
  cases hm : lastMax (s :: ss) with
  | none => exact absurd hm (lastMax_ne_none s ss)
  | some m =>
    obtain ⟨l₁, l₂, heq, h₁, h₂⟩ := lastMax_split (s :: ss) m hm
    refine ⟨m, l₁, l₂, ?_, heq, h₁, h₂⟩
    simp only [find_parent_snapshot_id]
    rw [lastSnap_sortByTime, hm]

/-- Witness for C6 (amended): the ordering theorem applied at a concrete
two-record list with equal timestamps. -/
theorem find_parent_ordering_witness :
    (find_parent_snapshot_id (Except.ok ([] : List Snap)) "tank").1 = none
    ∧ ∃ m l₁ l₂,
        (find_parent_snapshot_id (Except.ok [Snap.mk 5 "b", Snap.mk 5 "a"]) "tank").1 =
          some m.short_id
        ∧ [Snap.mk 5 "b", Snap.mk 5 "a"] = l₁ ++ m :: l₂
        ∧ (∀ x ∈ l₁, x.time ≤ m.time)
        ∧ (∀ x ∈ l₂, x.time < m.time) :=
  find_parent_ordering ("tank") [Snap.mk 5 "b", Snap.mk 5 "a"] (by decide)

/-- The cycle's outcome is exactly `cycleRes` of the oracle: in particular
it does not depend on the parent lookup or on any teardown outcome. -/
lemma processDataset_res (env : DatasetEnv) (d n : String) (st : JobStatus) :
    (processDataset env d n st).res = cycleRes env := by
  cases h1 : env.mkdirOk <;> cases h2 : env.snapshotOk <;> cases h3 : env.mountOk <;>
    cases h4 : env.backupOk <;>
      simp [processDataset, cycleBody, cycleRes, h1, h2, h3, h4]

/-- A failing unmount is logged as a warning by the teardown block. -/
lemma cleanup_log_unmount (env : DatasetEnv) (d fn mp : String) (st : JobStatus) (e : String)
    (h : env.unmountOk = Except.error e) :
    ("Cleanup warning: " ++ e) ∈ (cleanup env d fn mp st).1.log := by
  cases hd : env.destroyOk <;> cases hr : env.rmdirOk <;>
    simp [cleanup, h, hd, hr, logTo]

/-- A failing snapshot-destroy is logged as a warning by the teardown block. -/
lemma cleanup_log_destroy (env : DatasetEnv) (d fn mp : String) (st : JobStatus) (e : String)
    (h : env.destroyOk = Except.error e) :
    ("Cleanup warning: " ++ e) ∈ (cleanup env d fn mp st).1.log := by
  cases hu : env.unmountOk <;> cases hr : env.rmdirOk <;>
    simp [cleanup, h, hu, hr, logTo]

/-- A failing rmdir is logged as a warning by the teardown block. -/
lemma cleanup_log_rmdir (env : DatasetEnv) (d fn mp : String) (st : JobStatus) (e : String)
    (h : env.rmdirOk = Except.error e) :
    ("Cleanup warning: " ++ e) ∈ (cleanup env d fn mp st).1.log := by
  cases hu : env.unmountOk <;> cases hd : env.destroyOk <;>
    simp [cleanup, h, hu, hd, logTo]

/-- Once the mount-point directory was created, the cycle's trace contains
exactly one unmount, one destroy and one rmdir attempt for the handle. -/
lemma processDataset_counts (env : DatasetEnv) (d n : String) (st : JobStatus)
    (hmk : env.mkdirOk = Except.ok ()) :
    countUnmount (mount_point_for d) (processDataset env d n st).trace = 1
    ∧ countDestroy (d ++ "@" ++ n) (processDataset env d n st).trace = 1
    ∧ countRmdir (mount_point_for d) (processDataset env d n st).trace = 1 := by
  refine ⟨?_, ?_, ?_⟩ <;>
    cases h2 : env.snapshotOk <;> cases h3 : env.mountOk <;> cases h4 : env.backupOk <;>
      simp [processDataset, cycleBody, cleanup, hmk, h2, h3, h4,
            countUnmount, countDestroy, countRmdir]

/-- C2, counterexample: when the Preparing step (`zfs.mkdir`, which sits
*outside* the `try/finally`) fails, the cycle aborts with that error and NO
teardown attempt is made — not the "exactly one unmount/destroy/rmdir
attempt sequence regardless of which step fails" that the claim states. -/
theorem teardown_skipped_on_mkdir_failure :
    (processDataset mkdirFailEnv ("tank/data") ("restic-backup-2026-10-12_00-00-00")
        initial_status).res = Except.error ("mkdir: permission denied")
    ∧ countUnmount (mount_point_for ("tank/data"))
        (processDataset mkdirFailEnv ("tank/data") ("restic-backup-2026-10-12_00-00-00")
          initial_status).trace = 0
    ∧ countDestroy ("tank/data@restic-backup-2026-10-12_00-00-00")
        (processDataset mkdirFailEnv ("tank/data") ("restic-backup-2026-10-12_00-00-00")
          initial_status).trace = 0
    ∧ countRmdir (mount_point_for ("tank/data"))
        (processDataset mkdirFailEnv ("tank/data") ("restic-backup-2026-10-12_00-00-00")
          initial_status).trace = 0 :=
  ⟨rfl, rfl, rfl, rfl⟩

/-- C2 as amended: once the Preparing step's directory creation succeeded,
then regardless of which of Snapshotting, Mounting or Backing-up fails (and
regardless of the teardown outcomes), exactly one unmount/destroy/rmdir
attempt sequence is made for the dataset's handle; each teardown failure is
logged as a non-fatal warning and never re-raised; and the cycle's outcome
is exactly the first body failure (snapshot, then mount, then backup) — a
cleanup failure never masks or replaces it.  If Preparing itself fails, the
cycle aborts before the teardown block and no teardown is attempted. -/
theorem guaranteed_teardown (env : DatasetEnv) (d n : String) (st : JobStatus)
    (hmk : env.mkdirOk = Except.ok ()) :
    countUnmount (mount_point_for d) (processDataset env d n st).trace = 1
    ∧ countDestroy (d ++ "@" ++ n) (processDataset env d n st).trace = 1
    ∧ countRmdir (mount_point_for d) (processDataset env d n st).trace = 1
    ∧ (∀ e, env.unmountOk = Except.error e →
        ("Cleanup warning: " ++ e) ∈ (processDataset env d n st).status.log)
    ∧ (∀ e, env.destroyOk = Except.error e →
        ("Cleanup warning: " ++ e) ∈ (processDataset env d n st).status.log)
    ∧ (∀ e, env.rmdirOk = Except.error e →
        ("Cleanup warning: " ++ e) ∈ (processDataset env d n st).status.log)
    ∧ (processDataset env d n st).res =
        (match env.snapshotOk with
         | Except.error e => Except.error e
         | Except.ok _ =>
           match env.mountOk with
           | Except.error e => Except.error e
           | Except.ok _ => env.backupOk) := by
  obtain ⟨hcu, hcd, hcr⟩ := processDataset_counts env d n st hmk
  refine ⟨hcu, hcd, hcr, ?_, ?_, ?_, ?_⟩
  · intro e he
    simp only [processDataset, hmk]
    exact cleanup_log_unmount env d (d ++ "@" ++ n) (mount_point_for d) _ e he
  · intro e he
    simp only [processDataset, hmk]
    exact cleanup_log_destroy env d (d ++ "@" ++ n) (mount_point_for d) _ e he
  · intro e he
    simp only [processDataset, hmk]
    exact cleanup_log_rmdir env d (d ++ "@" ++ n) (mount_point_for d) _ e he
  · rw [processDataset_res]
    simp [cycleRes, hmk]

/-- Witness for C2 (amended): a concrete cycle whose three teardown steps
all fail — every teardown step is still attempted exactly once, each
failure is logged, and the cycle still returns success. -/
theorem guaranteed_teardown_witness :
    countUnmount (mount_point_for ("tank/data"))
      (processDataset teardownFailEnv ("tank/data") ("snap1") initial_status).trace = 1
    ∧ ("Cleanup warning: " ++ "umount: target is busy")
        ∈ (processDataset teardownFailEnv ("tank/data") ("snap1") initial_status).status.log
    ∧ ("Cleanup warning: " ++ "cannot destroy snapshot")
        ∈ (processDataset teardownFailEnv ("tank/data") ("snap1") initial_status).status.log
    ∧ ("Cleanup warning: " ++ "rmdir: directory not empty")
        ∈ (processDataset teardownFailEnv ("tank/data") ("snap1") initial_status).status.log
    ∧ (processDataset teardownFailEnv ("tank/data") ("snap1") initial_status).res =
        Except.ok () := by
  have h := guaranteed_teardown teardownFailEnv ("tank/data") ("snap1") initial_status rfl
  exact ⟨h.1, h.2.2.2.1 _ rfl, h.2.2.2.2.1 _ rfl, h.2.2.2.2.2.1 _ rfl, h.2.2.2.2.2.2⟩

/-- C5.  Parent-lookup failure is benign: if the parent query errors or
returns no records, the lookup yields `none` without raising (its type has
no failure case, mirroring the `try/except` that swallows everything), the
backup is still attempted from the mounted path with no parent linkage, and
the cycle's outcome is exactly the backup call's outcome — the lookup never
aborts the cycle. -/
theorem parent_lookup_benign (env : DatasetEnv) (d n : String) (st : JobStatus) (e : String)
    (hmk : env.mkdirOk = Except.ok ()) (hs : env.snapshotOk = Except.ok ())
    (hm : env.mountOk = Except.ok ())
    (hp : env.parentSnapshots = Except.error e ∨ env.parentSnapshots = Except.ok []) :
    (find_parent_snapshot_id env.parentSnapshots d).1 = none
    ∧ Act.backup (mount_point_for d) [d, d ++ "@" ++ n] none
        ∈ (processDataset env d n st).trace
    ∧ (processDataset env d n st).res = env.backupOk := by
  have hnone : (find_parent_snapshot_id env.parentSnapshots d).1 = none := by
    rcases hp with hp | hp <;> rw [hp] <;> rfl
  refine ⟨hnone, ?_, ?_⟩
  · cases hb : env.backupOk <;>
      simp [processDataset, cycleBody, cleanup, hmk, hs, hm, hb, hnone]
  · rw [processDataset_res]
    simp [cycleRes, hmk, hs, hm]

/-- Witness for C5: a concrete first-backup cycle (parent query returns no
records) still attempts the backup with no parent and succeeds. -/
theorem parent_lookup_benign_witness :
    (find_parent_snapshot_id allOkEnv.parentSnapshots ("tank/data")).1 = none
    ∧ Act.backup (mount_point_for ("tank/data")) ["tank/data", "tank/data" ++ "@" ++ "snap1"] none
        ∈ (processDataset allOkEnv ("tank/data") ("snap1") initial_status).trace
    ∧ (processDataset allOkEnv ("tank/data") ("snap1") initial_status).res = allOkEnv.backupOk :=
  parent_lookup_benign allOkEnv ("tank/data") ("snap1") initial_status ("e") rfl rfl rfl (Or.inr rfl)

/-- Notification extraction distributes over trace concatenation. -/
lemma notifies_append (a b : List Act) : notifies (a ++ b) = notifies a ++ notifies b := by
  induction a with
  | nil => rfl
  | cons hd tl ih => cases hd <;> simp [notifies, ih]

/-- Forget detection distributes over trace concatenation. -/
lemma hasForget_append (a b : List Act) :
    hasForget (a ++ b) = (hasForget a || hasForget b) := by
  induction a with
  | nil => rfl
  | cons hd tl ih => cases hd <;> simp [hasForget, ih]

/-- A dataset cycle never invokes prune and never sends a notification. -/
lemma processDataset_no_forget_notify (env : DatasetEnv) (d n : String) (st : JobStatus) :
    notifies (processDataset env d n st).trace = []
    ∧ hasForget (processDataset env d n st).trace = false := by
  constructor <;>
    cases h1 : env.mkdirOk <;> cases h2 : env.snapshotOk <;> cases h3 : env.mountOk <;>
      cases h4 : env.backupOk <;>
        simp [processDataset, cycleBody, cleanup, h1, h2, h3, h4, notifies, hasForget]

/-- The dataset loop never invokes prune and never sends a notification. -/
lemma runDatasets_no_forget_notify (denv : Nat → DatasetEnv) (names : Nat → String) :
    ∀ (ds : List String) (i : Nat) (st : JobStatus),
      notifies (runDatasets denv names ds i st).trace = []
      ∧ hasForget (runDatasets denv names ds i st).trace = false := by
  intro ds
  induction ds with
  | nil => intro i st; exact ⟨rfl, rfl⟩
  | cons d rest ih =>
    intro i st
    cases hres : (processDataset (denv i) d (names i) st).res with
    | error e =>
      simp only [runDatasets, hres]
      exact processDataset_no_forget_notify (denv i) d (names i) st
    | ok u =>
      simp only [runDatasets, hres]
      obtain ⟨hn1, hf1⟩ := processDataset_no_forget_notify (denv i) d (names i) st
      obtain ⟨hn2, hf2⟩ := ih (i + 1) (processDataset (denv i) d (names i) st).status
      constructor
      · simp [notifies_append, hn1, hn2]
      · simp [hasForget_append, hf1, hf2]

/-- Fail-fast shape of the dataset loop: when every dataset before position
`|ds₁|` succeeds and the dataset at that position fails, the loop aborts
with that dataset's error and the entered datasets are exactly the prefix
up to and including the failing one. -/
lemma runDatasets_fail (denv : Nat → DatasetEnv) (names : Nat → String)
    (d : String) (ds₂ : List String) (e : String) :
    ∀ (ds₁ : List String) (i : Nat) (st : JobStatus),
      (∀ k, k < ds₁.length → cycleRes (denv (i + k)) = Except.ok ()) →
      cycleRes (denv (i + ds₁.length)) = Except.error e →
      (runDatasets denv names (ds₁ ++ d :: ds₂) i st).res = Except.error e
      ∧ (runDatasets denv names (ds₁ ++ d :: ds₂) i st).entered = ds₁ ++ [d] := by
  intro ds₁
  induction ds₁ with
  | nil =>
    intro i st hok hfail
    have hres : (processDataset (denv i) d (names i) st).res = Except.error e := by
      rw [processDataset_res]
      simpa using hfail
    simp [List.nil_append, runDatasets, hres]
  | cons a rest ih =>
    intro i st hok hfail
    have h0 : cycleRes (denv i) = Except.ok () := by
      have := hok 0 (by simp)
      simpa using this
    have hres : (processDataset (denv i) a (names i) st).res = Except.ok () := by
      rw [processDataset_res]
      exact h0
    have hok2 : ∀ k, k < rest.length → cycleRes (denv (i + 1 + k)) = Except.ok () := by
      intro k hk
      have h1 := hok (k + 1) (by simpa using Nat.succ_lt_succ hk)
      have harith : i + (k + 1) = i + 1 + k := by omega
      rwa [harith] at h1
    have hfail2 : cycleRes (denv (i + 1 + rest.length)) = Except.error e := by
      have harith : i + (a :: rest).length = i + 1 + rest.length := by
        simp [List.length_cons]
        omega
      rwa [harith] at hfail
    obtain ⟨hr, he⟩ := ih (i + 1) (processDataset (denv i) a (names i) st).status hok2 hfail2
    simp only [List.cons_append, runDatasets, hres]
    exact ⟨hr, by simp [he]⟩

/-- A `send` call always records exactly one notification attempt. -/
lemma notifierSend_trace (nenv : NotifyEnv) (t m : String) (p : Nat) (st : JobStatus) :
    (notifierSend nenv t m p st).2 = [Act.notify t m p] := by
  cases hc : nenv.configured <;> cases hp : nenv.postOk <;> simp [notifierSend, hc, hp]

/-- A `send` call never touches the completed-run record. -/
lemma notifierSend_last_run (nenv : NotifyEnv) (t m : String) (p : Nat) (st : JobStatus) :
    (notifierSend nenv t m p st).1.last_completed_run = st.last_completed_run := by
  cases hc : nenv.configured <;> cases hp : nenv.postOk <;>
    simp [notifierSend, hc, hp, logTo]

/-- C3.  Fail-fast across datasets: if every dataset before some position
succeeds and the dataset at that position fails, then the worker enters
exactly the datasets up to and including the failing one (no subsequent
dataset is processed), the prune step is never invoked, exactly one failure
notification `send` is made, and the completed-run record is the single
failure record carrying the original cycle error. -/
theorem job_fail_fast (env : WorkerEnv) (st0 : JobStatus) (cfg : Config)
    (ds₁ : List String) (d : String) (ds₂ : List String) (e : String)
    (hc : env.configLoad = Except.ok cfg)
    (hds : cfg.datasets = ds₁ ++ d :: ds₂)
    (hok : ∀ k, k < ds₁.length → cycleRes (env.denv k) = Except.ok ())
    (hfail : cycleRes (env.denv ds₁.length) = Except.error e) :
    (perform_backup_thread env st0).entered = ds₁ ++ [d]
    ∧ hasForget (perform_backup_thread env st0).trace = false
    ∧ notifies (perform_backup_thread env st0).trace =
        [Act.notify ("❌ Backup FAILED") ("Failed: " ++ e) 8]
    ∧ (perform_backup_thread env st0).status.last_completed_run =
        CompletedRun.mk ("failure") (some env.finishTime) ("Failed: " ++ e) := by
  have hok0 : ∀ k, k < ds₁.length → cycleRes (env.denv (0 + k)) = Except.ok () := by
    intro k hk
    simpa using hok k hk
  have hfail0 : cycleRes (env.denv (0 + ds₁.length)) = Except.error e := by
    simpa using hfail
  obtain ⟨hr, he⟩ := runDatasets_fail env.denv env.snapNames d ds₂ e ds₁ 0
    ({ st0 with
       live_status := "running", current_task := "Reading config",
       last_run_start_time := some env.startTime, log := ([] : List String) }) hok0 hfail0
  obtain ⟨hn, hf⟩ := runDatasets_no_forget_notify env.denv env.snapNames (ds₁ ++ d :: ds₂) 0
    ({ st0 with
       live_status := "running", current_task := "Reading config",
       last_run_start_time := some env.startTime, log := ([] : List String) })
  refine ⟨?_, ?_, ?_, ?_⟩ <;>
    simp [perform_backup_thread, tryBody, hc, hds, hr, he, handleResult, finalize,
          hasForget_append, notifies_append, hn, hf, notifierSend_trace,
          notifierSend_last_run, logTo, hasForget, notifies]

/-- Witness for C3: two configured datasets, the first succeeds, the
second's mount fails — the job aborts after the second dataset, prune never
runs, and exactly one failure notification is sent. -/
theorem job_fail_fast_witness :
    (perform_backup_thread mountFailWorkerEnv initial_status).entered =
      ["tank/data"] ++ ["tank/more"]
    ∧ hasForget (perform_backup_thread mountFailWorkerEnv initial_status).trace = false
    ∧ notifies (perform_backup_thread mountFailWorkerEnv initial_status).trace =
        [Act.notify ("❌ Backup FAILED") ("Failed: " ++ "mount failed") 8]
    ∧ (perform_backup_thread mountFailWorkerEnv initial_status).status.last_completed_run =
        CompletedRun.mk ("failure") (some mountFailWorkerEnv.finishTime)
          ("Failed: " ++ "mount failed") := by
  have h := job_fail_fast mountFailWorkerEnv initial_status
    ⟨["tank/data", "tank/more"], [("keep-daily", "7")]⟩
    ["tank/data"] "tank/more" [] "mount failed" rfl rfl
    (by
      intro k hk
      have hk0 : k = 0 := by simpa using Nat.lt_one_iff.mp (by simpa using hk)
      subst hk0
      rfl)
    rfl
  exact h

/-- C7.  Retention flattening: the prune arguments are the deterministic
flattening of the policy mapping — their length is twice the number of
entries, and the entry at position `i` of the mapping contributes exactly
the argument pair `--key` / `value` at positions `2i` and `2i+1`, in the
mapping's iteration order; and when the retention policy is empty no prune
invocation is ever made by the worker. -/
theorem retention_flattening (policy : List (String × String)) (env : WorkerEnv)
    (st0 : JobStatus) (cfg : Config) :
    (retention_args policy).length = 2 * policy.length
    ∧ (∀ i kv, policy[i]? = some kv →
        (retention_args policy)[2 * i]? = some ("--" ++ kv.1)
        ∧ (retention_args policy)[2 * i + 1]? = some kv.2)
    ∧ (env.configLoad = Except.ok cfg → cfg.retention = [] →
        hasForget (perform_backup_thread env st0).trace = false) := by
  refine ⟨?_, ?_, ?_⟩
  · induction policy with
    | nil => rfl
    | cons kv rest ih =>
      simp only [retention_args, List.length_cons, ih]
      omega
  · intro i kv
    induction policy generalizing i with
    | nil => simp
    | cons hd rest ih =>
      cases i with
      | zero =>
        intro h
        simp only [List.getElem?_cons_zero, Option.some.injEq] at h
        subst h
        refine ⟨?_, ?_⟩ <;> simp [retention_args]
      | succ j =>
        intro h
        simp only [List.getElem?_cons_succ] at h
        have hre : retention_args (hd :: rest) =
            ("--" ++ hd.1) :: hd.2 :: retention_args rest := rfl
        have e1 : 2 * (j + 1) = 2 * j + 1 + 1 := by omega
        rw [hre, e1]
        simp only [List.getElem?_cons_succ]
        exact ih j h
  · intro hcl hret
    obtain ⟨hn, hf⟩ := runDatasets_no_forget_notify env.denv env.snapNames cfg.datasets 0
      ({ st0 with
         live_status := "running", current_task := "Reading config",
         last_run_start_time := some env.startTime, log := ([] : List String) })
    cases hres : (runDatasets env.denv env.snapNames cfg.datasets 0
        ({ st0 with
           live_status := "running", current_task := "Reading config",
           last_run_start_time := some env.startTime, log := ([] : List String) })).res with
    | error e =>
      simp [perform_backup_thread, tryBody, hcl, hres, handleResult, finalize,
            hasForget_append, hf, notifierSend_trace, hasForget]
    | ok u =>
      simp [perform_backup_thread, tryBody, hcl, hret, hres, handleResult, finalize,
            hasForget_append, hf, notifierSend_trace, hasForget]

/-- Witness for C7: the flattening evaluated on a one-entry policy, and a
worker with an empty retention policy making no prune invocation. -/
theorem retention_flattening_witness :
    (retention_args [("keep-daily", "7")]).length =
      2 * ([("keep-daily", "7")] : List (String × String)).length
    ∧ (retention_args [("keep-daily", "7")])[2 * 0]? = some ("--" ++ "keep-daily")
    ∧ (retention_args [("keep-daily", "7")])[2 * 0 + 1]? = some ("7")
    ∧ hasForget (perform_backup_thread noRetentionWorkerEnv initial_status).trace = false := by
  have h := retention_flattening [("keep-daily", "7")] noRetentionWorkerEnv initial_status
    ⟨[], []⟩
  have h2 := h.2.1 0 ("keep-daily", "7") rfl
  exact ⟨h.1, h2.1, h2.2, h.2.2 rfl rfl⟩

/-- C10.  An empty (or absent, which reads as empty) dataset list succeeds:
no dataset cycle is entered, every traced action is the prune invocation or
a notification (no snapshot, mount, backup, mkdir or teardown action), and
provided the prune step succeeds when a retention policy is present, the
worker records the success completed-run. -/
theorem empty_datasets_success (env : WorkerEnv) (st0 : JobStatus) (cfg : Config)
    (hc : env.configLoad = Except.ok cfg) (hd : cfg.datasets = [])
    (hr : cfg.retention = [] ∨ env.forgetOk = Except.ok ()) :
    (perform_backup_thread env st0).entered = []
    ∧ (∀ a ∈ (perform_backup_thread env st0).trace, a.isForget = true ∨ a.isNotify = true)
    ∧ (perform_backup_thread env st0).status.last_completed_run =
        CompletedRun.mk ("success") (some env.finishTime)
          "Backup and prune completed successfully." := by
  cases hret : cfg.retention with
  | nil =>
    refine ⟨?_, ?_, ?_⟩ <;>
      simp [perform_backup_thread, tryBody, hc, hd, hret, runDatasets, handleResult,
            finalize, notifierSend_trace, notifierSend_last_run, Act.isNotify, logTo]
  | cons kv rest =>
    have hforget : env.forgetOk = Except.ok () := by
      rcases hr with hr2 | hr2
      · rw [hret] at hr2
        simp at hr2
      · exact hr2
    refine ⟨?_, ?_, ?_⟩ <;>
      simp [perform_backup_thread, tryBody, hc, hd, hret, hforget, runDatasets,
            handleResult, finalize, notifierSend_trace, notifierSend_last_run,
            Act.isForget, Act.isNotify, logTo]

/-- Witness for C10: a concrete configuration with no datasets and a
one-entry retention policy whose prune succeeds. -/
theorem empty_datasets_success_witness :
    (perform_backup_thread emptyDatasetsWorkerEnv initial_status).entered = []
    ∧ (∀ a ∈ (perform_backup_thread emptyDatasetsWorkerEnv initial_status).trace,
        a.isForget = true ∨ a.isNotify = true)
    ∧ (perform_backup_thread emptyDatasetsWorkerEnv initial_status).status.last_completed_run =
        CompletedRun.mk ("success") (some emptyDatasetsWorkerEnv.finishTime)
          "Backup and prune completed successfully." :=
  empty_datasets_success emptyDatasetsWorkerEnv initial_status
    ⟨[], [("keep-daily", "7")]⟩ rfl rfl (Or.inr rfl)
